import Mathlib

/-!
# Verification of the Sentryx live-camera connection core

Shallow embedding of the live camera stream connection manager of the
Sentryx app: the transport classifier, the WHEP session negotiator
(`src/components/WebRTCCamera.tsx`) and the connection supervisor state
machine (`src/app/(main)/camera.tsx`), together with theorems settling
the specification claims about them.
-/

namespace Sentryx

/-! ## String helpers

JavaScript's `String.prototype.includes` tested on character lists, and the
single-trailing-slash removal `url.replace(/\/$/, '')`. -/

/-- `hasSeq sub l` holds when `sub` occurs as a contiguous run inside `l`;
character-list version of JavaScript `includes`. -/
def hasSeq (sub : List Char) : List Char → Bool
  | [] => sub.isEmpty
  | c :: t => sub.isPrefixOf (c :: t) || hasSeq sub t

/-- JavaScript `s.includes(sub)` on Lean strings. -/
def includes (s sub : String) : Bool :=
  hasSeq sub.toList s.toList

/-- Whether the final character of `s` is a slash. -/
def endsWithSlash (s : String) : Bool :=
  match s.toList.getLast? with
  | some c => c == '/'
  | none => false

/-- JavaScript `url.replace(/\/$/, '')`: remove one trailing slash if present. -/
def dropTrailingSlash (s : String) : String :=
  if endsWithSlash s then s.toList.dropLast.asString else s

/-! ## Transport classifier

From `src/app/(main)/camera.tsx` lines 34-42 and 127-131. The runtime flag
`isExpoGo` (`Constants.appOwnership === 'expo'`) is an environment input. -/

/-- `isHlsStream` from camera.tsx line 34. -/
def isHlsStream (url : String) : Bool :=
  includes url ".m3u8" || includes url "stream.m3u8"

/-- `isMediaMTXWebRTC` from camera.tsx line 37. -/
def isMediaMTXWebRTC (url : String) : Bool :=
  includes url "8889" && (includes url "/cam" || includes url "/cam/")

/-- Runtime environment input: whether the app runs inside the Expo Go
sandbox (which lacks native WebRTC primitives). -/
structure Env where
  isExpoGo : Bool
deriving DecidableEq

/-- `useHls` flag, camera.tsx line 127. -/
def useHls (url : String) : Bool := isHlsStream url

/-- `useWebRTC` flag, camera.tsx line 129. -/
def useWebRTC (env : Env) (url : String) : Bool :=
  isMediaMTXWebRTC url && !env.isExpoGo

/-- `useWebView` flag, camera.tsx line 130. -/
def useWebView (env : Env) (url : String) : Bool :=
  !useHls url && !useWebRTC env url

/-- Number of transport branches selected for a URL: the `Video` element is
rendered when `useHls`, the `WebRTCCamera` element when `useWebRTC`, the
`WebView` element when `useWebView` (camera.tsx lines 351, 365, 378). -/
def selectedCount (env : Env) (url : String) : Nat :=
  (if useHls url then 1 else 0) +
    (if useWebRTC env url then 1 else 0) +
    (if useWebView env url then 1 else 0)

/-! ## WHEP endpoint derivation and signaling request

From `src/components/WebRTCCamera.tsx` lines 26-29 and 86-93. -/

/-- `getWhepEndpoint` from WebRTCCamera.tsx line 26:
`url.replace(/\/$/, '') + '/whep'`. -/
def getWhepEndpoint (url : String) : String :=
  dropTrailingSlash url ++ "/whep"

/-- The HTTP request issued by `connect` (WebRTCCamera.tsx lines 86-93). -/
structure SignalingRequest where
  url : String
  method : String
  contentType : String
  accept : String
  body : String
deriving DecidableEq

/-- The signaling POST built by `connect` for stream URL `url` with local
description `sdp`. -/
def connectRequest (url sdp : String) : SignalingRequest :=
  { url := getWhepEndpoint url
    method := "POST"
    contentType := "application/sdp"
    accept := "application/sdp"
    body := sdp }

/-- A fetch response as observed by `connect`: HTTP status and body text. -/
structure FetchResponse where
  status : Nat
  body : String
deriving DecidableEq

/-- `res.ok`: HTTP status in the 2xx range. -/
def resOk (r : FetchResponse) : Bool :=
  200 ≤ r.status && r.status < 300

/-- Outcome of one negotiation attempt as reported by `connect`: the
function is total — every failure is caught by the surrounding
`try`/`catch` and reported through `onError`, never rethrown. -/
inductive ConnectOutcome where
  | success (answerSdp : String)
  | failure (reason : String)
deriving DecidableEq

/-- Denotation of `connect`'s control flow after the gathering wait
(WebRTCCamera.tsx lines 80-107): a missing local description throws
`'No local description'`; an unreachable signaling resource rejects the
fetch; a non-2xx response throws `` `WHEP request failed: ${res.status}` ``;
otherwise the response body is the remote answer. The `catch` turns every
throw into an `onError` report. -/
def connectOutcome (localSdp : Option String) (resp : Option FetchResponse) :
    ConnectOutcome :=
  match localSdp with
  | none => .failure "No local description"
  | some _ =>
    match resp with
    | none => .failure "Network request failed"
    | some r =>
      if resOk r then .success r.body
      else .failure ("WHEP request failed: " ++ toString r.status)

/-! ## Connection supervisor state machine

From `src/app/(main)/camera.tsx`. State variables: `status`, `retryCount`,
`webViewKey`, `webrtcKey`, `lastWebViewError` (lines 58-66). -/

/-- `StreamStatus` from camera.tsx line 44. -/
inductive StreamStatus where
  | connecting
  | connected
  | error
  | offline
deriving DecidableEq

/-- The supervisor-owned state of `CameraScreen`. -/
structure SupState where
  status : StreamStatus
  retryCount : Nat
  webViewKey : Nat
  webrtcKey : Nat
  lastWebViewError : Option String
deriving DecidableEq

/-- State on mount: `connecting`, counter 0 (camera.tsx lines 58-66). -/
def initState : SupState :=
  { status := .connecting, retryCount := 0, webViewKey := 0, webrtcKey := 0
    lastWebViewError := none }

/-- `maxRetries` from camera.tsx line 132. -/
def maxRetries : Nat := 5

/-- `handlePlaybackStatusUpdate` (camera.tsx lines 157-164): HLS transport
readiness callback. `isLoaded` resets the counter and sets `connected`;
otherwise a reported error sets `error`. -/
def handlePlaybackStatusUpdate (isLoaded hasError : Bool) (s : SupState) :
    SupState :=
  if isLoaded then { s with status := .connected, retryCount := 0 }
  else if hasError then { s with status := .error }
  else s

/-- `handleError` (camera.tsx lines 166-168): HLS `onError` callback. -/
def handleError (s : SupState) : SupState :=
  { s with status := .error }

/-- `handleWebViewLoad` (camera.tsx lines 170-174). -/
def handleWebViewLoad (s : SupState) : SupState :=
  { s with status := .connected, retryCount := 0, lastWebViewError := none }

/-- `handleWebViewError` (camera.tsx lines 176-181). -/
def handleWebViewError (err : Option String) (s : SupState) : SupState :=
  match err with
  | some e => { s with status := .error, lastWebViewError := some e }
  | none => { s with status := .error }

/-- The `onConnected` prop passed to `WebRTCCamera` (camera.tsx
lines 370-373). -/
def onWebRTCConnected (s : SupState) : SupState :=
  { s with status := .connected, retryCount := 0 }

/-- The `onError` prop passed to `WebRTCCamera` (camera.tsx line 374). -/
def onWebRTCError (s : SupState) : SupState :=
  { s with status := .error }

/-- `handleRetry` (camera.tsx lines 187-212). At or above the ceiling the
status is set to `offline` and the handler returns without touching the
counter or starting any attempt; below the ceiling the status is set to
`connecting`, the counter is incremented, and the transport-specific
reload is triggered (HLS reload, or a key bump recreating the WebRTC /
WebView element). -/
def handleRetry (env : Env) (url : String) (s : SupState) : SupState :=
  if maxRetries ≤ s.retryCount then { s with status := .offline }
  else
    let s1 := { s with status := .connecting, retryCount := s.retryCount + 1 }
    if useHls url then s1
    else if useWebRTC env url then { s1 with webrtcKey := s1.webrtcKey + 1 }
    else { s1 with webViewKey := s1.webViewKey + 1 }

/-- The `catch` in `handleRetry`'s HLS reload (camera.tsx lines 203-206):
a failed reload later reports `error`. -/
def handleRetryCatch (s : SupState) : SupState :=
  { s with status := .error }

/-- The `useFocusEffect` callback (camera.tsx lines 143-155): on focus
regain the status is set to `connecting` unconditionally; the WebView key
is bumped when the WebView transport is active; the counter is untouched. -/
def focusRegain (env : Env) (url : String) (s : SupState) : SupState :=
  let s1 := { s with status := .connecting }
  if useHls url then s1
  else if useWebView env url then { s1 with webViewKey := s1.webViewKey + 1 }
  else s1

/-- Whether the error overlay renders the `Try Again` button
(camera.tsx line 331): only in `error` below the ceiling. -/
def showsTryAgain (st : StreamStatus) (retryCount : Nat) : Bool :=
  st == .error && decide (retryCount < maxRetries)

/-- Whether the overlay offering `Open in Safari` is rendered
(camera.tsx line 315): in `error` and in `offline`. -/
def showsOpenExternally (st : StreamStatus) : Bool :=
  st == .error || st == .offline

/-! ## Negotiator event surface

From `src/components/WebRTCCamera.tsx` lines 48-59: the `pc.ontrack` and
`pc.oniceconnectionstatechange` handlers. -/

/-- An `ontrack` event: the (possibly empty) list of media streams it
carries (`event.streams`). Streams are identified by a numeric id. -/
structure TrackEvent where
  streams : List Nat
deriving DecidableEq

/-- Per-attempt negotiator view state: the inbound stream stored by
`setStream` (WebRTCCamera.tsx line 37). -/
structure AttemptView where
  stream : Option Nat
deriving DecidableEq

/-- The `pc.ontrack` handler (WebRTCCamera.tsx lines 48-53): when the event
carries a stream, store it and invoke `onConnected`. Returns the updated
view and whether `onConnected` fired. The guard looks only at the event,
never at whether a stream was already attached. -/
def onTrackHandler (ev : TrackEvent) (v : AttemptView) : AttemptView × Bool :=
  match ev.streams with
  | [] => (v, false)
  | sId :: _ => ({ v with stream := some sId }, true)

/-- Process a list of `ontrack` events in order, counting how many times
`onConnected` fires within the one attempt. -/
def processTrackEvents (v : AttemptView) : List TrackEvent → AttemptView × Nat
  | [] => (v, 0)
  | e :: rest =>
    let p := onTrackHandler e v
    let q := processTrackEvents p.1 rest
    (q.1, (if p.2 then 1 else 0) + q.2)

/-- ICE connection states of a peer connection. -/
inductive IceState where
  | new
  | checking
  | connected
  | completed
  | failed
  | disconnected
  | closed
deriving DecidableEq

/-- The textual name interpolated into the error reason. -/
def iceStateText : IceState → String
  | .new => "new"
  | .checking => "checking"
  | .connected => "connected"
  | .completed => "completed"
  | .failed => "failed"
  | .disconnected => "disconnected"
  | .closed => "closed"

/-- The `pc.oniceconnectionstatechange` handler (WebRTCCamera.tsx
lines 55-59): returns the `onError` reason it reports, if any — it
reports `` `Connection ${state}` `` exactly when the state is `failed` or
`disconnected`. -/
def onIceStateChange (st : IceState) : Option String :=
  if st = .failed ∨ st = .disconnected then
    some ("Connection " ++ iceStateText st)
  else none

/-! ## Candidate-gathering wait

From `src/components/WebRTCCamera.tsx` lines 65-78: a promise that resolves
immediately when gathering is already complete, otherwise resolves at the
earlier of gathering completion and a fixed 2000 ms timeout. It has no
reject path. -/

/-- The fixed gathering timeout (WebRTCCamera.tsx line 71). -/
def gatheringTimeoutMs : Nat := 2000

/-- How a promise settles: resolution or rejection, at a time in ms. -/
inductive SettleOutcome where
  | resolvedAt (t : Nat)
  | rejectedAt (t : Nat) (reason : String)
deriving DecidableEq

/-- Denotation of the gathering-wait promise executor, as a function of the
time (ms after the wait starts) at which ICE gathering reaches
`'complete'`, with `none` meaning it never does. Time 0 is the immediate
`iceGatheringState === 'complete'` check; a later completion resolves via
the `onicegatheringstatechange` listener unless the 2000 ms timer fires
first. -/
def gatherWait (completeAt : Option Nat) : SettleOutcome :=
  match completeAt with
  | some 0 => .resolvedAt 0
  | some (t + 1) =>
    if t + 1 ≤ gatheringTimeoutMs then .resolvedAt (t + 1)
    else .resolvedAt gatheringTimeoutMs
  | none => .resolvedAt gatheringTimeoutMs

/-! ## Attempt lifecycle and stale events

Each `WebRTCCamera` mount is one negotiation attempt, identified here by a
generation number (the `webrtcKey` that recreates the element). The
`useEffect` cleanup (WebRTCCamera.tsx lines 110-119) closes the attempt's
peer connection on teardown. A closed `RTCPeerConnection` fires no further
`ontrack` events and undergoes no further ICE transitions to `failed` or
`disconnected`, so those two handler paths are dead after teardown; but
the `connect` coroutine's `catch` (lines 104-107) runs even after
teardown and calls `onError` with no identity or staleness check, and the
parent's `onError` prop (camera.tsx line 374) likewise applies
unconditionally. -/

/-- A mounted camera session: supervisor state, the generation of the
currently mounted attempt, and the generations whose peer connection has
been closed by teardown. -/
structure Session where
  sup : SupState
  currentGen : Nat
  closedGens : List Nat
deriving DecidableEq

/-- Teardown of the current attempt (the `useEffect` cleanup): its peer
connection is closed. -/
def teardownCurrent (sess : Session) : Session :=
  { sess with closedGens := sess.currentGen :: sess.closedGens }

/-- Mounting a fresh attempt (a `webrtcKey` bump recreating the element):
the generation advances. -/
def startAttempt (sess : Session) : Session :=
  { sess with currentGen := sess.currentGen + 1 }

/-- Asynchronous events an attempt can raise towards the supervisor. -/
inductive AttemptEvent where
  | trackAttached
  | iceDown (st : IceState)
  | negotiationFailed (reason : String)
deriving DecidableEq

/-- Delivery of an attempt event raised by generation `gen`.
`trackAttached` and ICE events originate from handlers on the attempt's
peer connection, which is silenced once closed; the negotiation-failure
path is the `connect` `catch`, which runs regardless of closure and calls
the parent's `onError` prop with no staleness check. -/
def deliver (sess : Session) (gen : Nat) (e : AttemptEvent) : Session :=
  match e with
  | .trackAttached =>
    if sess.closedGens.contains gen then sess
    else { sess with sup := onWebRTCConnected sess.sup }
  | .iceDown st =>
    if sess.closedGens.contains gen then sess
    else
      match onIceStateChange st with
      | some _ => { sess with sup := onWebRTCError sess.sup }
      | none => sess
  | .negotiationFailed _ => { sess with sup := onWebRTCError sess.sup }

/-! ## Scenario traces -/

/-- One consecutive-failure round of Scenario D: an automatic retry is
issued from `error` and the resulting attempt fails again. -/
def retryFailRound (env : Env) (url : String) (s : SupState) : SupState :=
  onWebRTCError (handleRetry env url s)

/-- `iterateRounds env url n s`: `n` consecutive retry-then-fail rounds. -/
def iterateRounds (env : Env) (url : String) : Nat → SupState → SupState
  | 0, s => s
  | n + 1, s => iterateRounds env url n (retryFailRound env url s)

/-- Scenario-E trace: attempt 0 is pending when a manual retry tears it
down and mounts attempt 1; attempt 1 then attaches its inbound media. -/
def scenarioETrace : Session :=
  deliver
    { startAttempt (teardownCurrent ⟨initState, 0, []⟩) with
      sup := handleRetry ⟨false⟩ "http://host:8889/cam" initState }
    1 .trackAttached

end Sentryx

namespace Sentryx

/-! ## C1 — retry ceiling enforcement -/

/-- C1 counterexample. The claim states that with ceiling K = 5 the Kth
consecutive failure-retry from `error` transitions to `offline`. In the
code the guard `retryCount >= maxRetries` is checked before the increment,
so in a run of consecutive failures starting from counter 0 the 5th retry
still executes with counter 4 and transitions to `connecting` with
counter 5; only the 6th retry reaches `offline`. After the first failure
(`onWebRTCError initState`) and four retry-then-fail rounds, the 5th
retry yields `connecting`, not `offline`. -/
theorem retry_ceiling_counterexample :
    (handleRetry ⟨false⟩ "http://host:8889/cam"
        (iterateRounds ⟨false⟩ "http://host:8889/cam" 4
          (onWebRTCError initState))).status = StreamStatus.connecting ∧
    (handleRetry ⟨false⟩ "http://host:8889/cam"
        (iterateRounds ⟨false⟩ "http://host:8889/cam" 4
          (onWebRTCError initState))).retryCount = 5 ∧
    (handleRetry ⟨false⟩ "http://host:8889/cam"
        (iterateRounds ⟨false⟩ "http://host:8889/cam" 4
          (onWebRTCError initState))).status ≠ StreamStatus.offline := by
  decide

/-- C1 (amended): every retry executed with counter < 5 transitions to
`connecting` and increments the counter by one; a retry executed with
counter ≥ 5 (the (K+1)th consecutive retry of a run from 0) sets the
status to `offline` and changes nothing else — the counter ends at 5 and
no new attempt is started (no key is bumped). -/
theorem retry_ceiling_enforcement (env : Env) (url : String) (s : SupState) :
    (s.retryCount < maxRetries →
      (handleRetry env url s).status = StreamStatus.connecting ∧
      (handleRetry env url s).retryCount = s.retryCount + 1) ∧
    (maxRetries ≤ s.retryCount →
      handleRetry env url s = { s with status := StreamStatus.offline }) := by
  constructor
  · intro h
    simp only [handleRetry, if_neg (by omega : ¬ maxRetries ≤ s.retryCount)]
    cases h1 : useHls url <;> cases h2 : useWebRTC env url <;> simp [h1, h2]
  · intro h
    simp only [handleRetry, if_pos h]

/-- C1 witness: a retry at counter 2 transitions to `connecting` with
counter 3; a retry at counter 5 transitions to `offline` leaving the
state otherwise untouched. -/
theorem retry_ceiling_enforcement_witness :
    (handleRetry ⟨false⟩ "http://host:8889/cam"
      ⟨StreamStatus.error, 2, 0, 0, none⟩).status = StreamStatus.connecting ∧
    handleRetry ⟨false⟩ "http://host:8889/cam"
        ⟨StreamStatus.error, 5, 0, 0, none⟩ =
      { (⟨StreamStatus.error, 5, 0, 0, none⟩ : SupState) with
        status := StreamStatus.offline } :=
  ⟨((retry_ceiling_enforcement ⟨false⟩ "http://host:8889/cam"
      ⟨StreamStatus.error, 2, 0, 0, none⟩).1 (by decide)).1,
   (retry_ceiling_enforcement ⟨false⟩ "http://host:8889/cam"
      ⟨StreamStatus.error, 5, 0, 0, none⟩).2 (by decide)⟩

/-! ## C2 — signaling failure handling -/

/-- C2 counterexample. On an HTTP 500 signaling response the attempt does
report the terminal failure `"WHEP request failed: 500"` and the
supervisor transitions `connecting` → `error`; but the claim's final
conjunct — counter = 1 after that transition — is false: no failure path
touches the counter, so it remains 0. -/
theorem signaling_500_counterexample :
    connectOutcome (some "v=0") (some ⟨500, ""⟩) =
      ConnectOutcome.failure "WHEP request failed: 500" ∧
    (onWebRTCError ⟨StreamStatus.connecting, 0, 0, 0, none⟩).status =
      StreamStatus.error ∧
    (onWebRTCError ⟨StreamStatus.connecting, 0, 0, 0, none⟩).retryCount = 0 ∧
    (onWebRTCError ⟨StreamStatus.connecting, 0, 0, 0, none⟩).retryCount ≠ 1 := by
  decide

/-- C2 (amended): for every non-2xx signaling response the negotiation
attempt reports a terminal failure whose reason contains the numeric HTTP
status (the outcome function is total: the `catch` surfaces every failure
through `onError` and nothing escapes the boundary), and the supervisor's
`onError` transition sets `error` while leaving the retry counter
unchanged (0 on the initial attempt, not 1). -/
theorem signaling_failure_handling (sdp body : String) (st : Nat) (s : SupState)
    (h : resOk ⟨st, body⟩ = false) :
    (∃ a b, connectOutcome (some sdp) (some ⟨st, body⟩) =
        ConnectOutcome.failure (a ++ toString st ++ b)) ∧
    (onWebRTCError s).status = StreamStatus.error ∧
    (onWebRTCError s).retryCount = s.retryCount := by
  refine ⟨⟨"WHEP request failed: ", "", ?_⟩, rfl, rfl⟩
  simp [connectOutcome, h]

/-- C2 witness at HTTP 500 and the initial supervisor state. -/
theorem signaling_failure_handling_witness :
    (∃ a b, connectOutcome (some "v=0") (some ⟨500, ""⟩) =
        ConnectOutcome.failure (a ++ toString 500 ++ b)) ∧
    (onWebRTCError initState).status = StreamStatus.error ∧
    (onWebRTCError initState).retryCount = initState.retryCount :=
  signaling_failure_handling "v=0" "" 500 initState (by decide)

/-! ## C3 — stale-event immunity -/

/-- C3 counterexample (Scenario E). In `scenarioETrace` attempt 0 has been
torn down (its generation is in `closedGens`), attempt 1 is current and
its track attachment has set the status to `connected`. The claim states
that no event fired by a torn-down attempt ever changes the status; but
attempt 0's late negotiation-failure callback — the `connect` `catch`,
which carries no identity check — still invokes `onError` and flips the
status to `error`. -/
theorem stale_event_counterexample :
    scenarioETrace.sup.status = StreamStatus.connected ∧
    scenarioETrace.closedGens.contains 0 = true ∧
    (deliver scenarioETrace 0
        (AttemptEvent.negotiationFailed "WHEP request failed: 500")).sup.status =
      StreamStatus.error := by
  decide

/-- C3 (amended): track-attached and ICE events fired by a torn-down
attempt never change the supervisor state — closing the peer connection
on teardown silences those handlers; but a late negotiation-failure
callback from a torn-down attempt is not staleness-checked and still sets
the status to `error`. -/
theorem stale_event_immunity (sess : Session) (gen : Nat) (st : IceState)
    (r : String) (h : sess.closedGens.contains gen = true) :
    deliver sess gen AttemptEvent.trackAttached = sess ∧
    deliver sess gen (AttemptEvent.iceDown st) = sess ∧
    (deliver sess gen (AttemptEvent.negotiationFailed r)).sup.status =
      StreamStatus.error := by
  have hm : gen ∈ sess.closedGens := by simpa using h
  refine ⟨?_, ?_, rfl⟩ <;> simp [deliver, hm]

/-- C3 witness at the Scenario-E session and attempt 0. -/
theorem stale_event_immunity_witness :
    deliver scenarioETrace 0 AttemptEvent.trackAttached = scenarioETrace ∧
    deliver scenarioETrace 0 (AttemptEvent.iceDown IceState.failed) =
      scenarioETrace ∧
    (deliver scenarioETrace 0
        (AttemptEvent.negotiationFailed "Network request failed")).sup.status =
      StreamStatus.error :=
  stale_event_immunity scenarioETrace 0 IceState.failed
    "Network request failed" (by decide)

/-! ## C4 — offline is terminal and user-recoverable -/

/-- C4 counterexample. The claim states that a manual retry from `offline`
sets the status to `connecting` and resets the counter to 0, and that the
offline UI still offers a manual-retry affordance. In the code the retry
handler invoked at `offline` (counter 5) hits the ceiling guard and
re-asserts `offline` with the counter still 5, and the `Try Again` button
is rendered only in `error` below the ceiling — never in `offline`. -/
theorem offline_recovery_counterexample :
    handleRetry ⟨false⟩ "http://host:8889/cam"
        ⟨StreamStatus.offline, 5, 0, 0, none⟩ =
      ⟨StreamStatus.offline, 5, 0, 0, none⟩ ∧
    showsTryAgain StreamStatus.offline 5 = false := by
  decide

/-- C4 (amended): at `offline` with the counter at the ceiling, the retry
handler is the identity — it neither leaves `offline` nor resets the
counter nor starts an attempt; the offline overlay renders no retry
affordance, only the open-externally affordance; and focus regain from
`offline` sets `connecting` while leaving the counter unchanged. -/
theorem offline_terminal (env : Env) (url : String) (s : SupState)
    (hs : s.status = StreamStatus.offline) (hc : maxRetries ≤ s.retryCount) :
    handleRetry env url s = s ∧
    (∀ n, showsTryAgain StreamStatus.offline n = false) ∧
    showsOpenExternally StreamStatus.offline = true ∧
    (focusRegain env url s).status = StreamStatus.connecting ∧
    (focusRegain env url s).retryCount = s.retryCount := by
  obtain ⟨st, rc, wk, rk, le⟩ := s
  simp only at hs hc
  subst hs
  refine ⟨?_, ?_, rfl, ?_, ?_⟩
  · simp [handleRetry, if_pos hc]
  · intro n
    simp [showsTryAgain]
  · simp only [focusRegain]
    cases h1 : useHls url <;> cases h2 : useWebView env url <;> simp [h1, h2]
  · simp only [focusRegain]
    cases h1 : useHls url <;> cases h2 : useWebView env url <;> simp [h1, h2]

/-- C4 witness at the offline state with counter 5. -/
theorem offline_terminal_witness :
    handleRetry ⟨false⟩ "http://host:8889/cam"
        ⟨StreamStatus.offline, 5, 1, 1, none⟩ =
      (⟨StreamStatus.offline, 5, 1, 1, none⟩ : SupState) ∧
    (focusRegain ⟨false⟩ "http://host:8889/cam"
        ⟨StreamStatus.offline, 5, 1, 1, none⟩).status =
      StreamStatus.connecting :=
  ⟨(offline_terminal ⟨false⟩ "http://host:8889/cam"
      ⟨StreamStatus.offline, 5, 1, 1, none⟩ rfl (by decide)).1,
   (offline_terminal ⟨false⟩ "http://host:8889/cam"
      ⟨StreamStatus.offline, 5, 1, 1, none⟩ rfl (by decide)).2.2.2.1⟩

/-! ## C5 — retry-counter monotonicity -/

/-- C5 counterexample. The claim states the counter is reset to 0 on a
manual retry from `offline`; in the code the retry handler at `offline`
leaves the counter at 5 (and the status at `offline`). -/
theorem counter_reset_counterexample :
    (handleRetry ⟨true⟩ "http://example.com/x"
        ⟨StreamStatus.offline, 5, 2, 0, none⟩).retryCount = 5 ∧
    (handleRetry ⟨true⟩ "http://example.com/x"
        ⟨StreamStatus.offline, 5, 2, 0, none⟩).retryCount ≠ 0 ∧
    (handleRetry ⟨true⟩ "http://example.com/x"
        ⟨StreamStatus.offline, 5, 2, 0, none⟩).status = StreamStatus.offline := by
  decide

/-- C5 (amended): the counter increments by exactly one on each retry
below the ceiling and resets to 0 exactly on the three transitions into
`connected` (HLS playback loaded, WebView loaded, WebRTC track attached);
every other operation — failure reports on all three transports, the
retry handler at the ceiling, the HLS reload catch, and focus regain —
leaves it unchanged. No reset happens from `offline`. -/
theorem counter_monotonicity (env : Env) (url : String) (e : Option String)
    (b : Bool) (s : SupState) :
    ((handlePlaybackStatusUpdate true b s).retryCount = 0 ∧
      (handlePlaybackStatusUpdate true b s).status = StreamStatus.connected) ∧
    ((handleWebViewLoad s).retryCount = 0 ∧
      (handleWebViewLoad s).status = StreamStatus.connected) ∧
    ((onWebRTCConnected s).retryCount = 0 ∧
      (onWebRTCConnected s).status = StreamStatus.connected) ∧
    (s.retryCount < maxRetries →
      (handleRetry env url s).retryCount = s.retryCount + 1) ∧
    (maxRetries ≤ s.retryCount →
      (handleRetry env url s).retryCount = s.retryCount) ∧
    (handlePlaybackStatusUpdate false b s).retryCount = s.retryCount ∧
    (handleError s).retryCount = s.retryCount ∧
    (handleWebViewError e s).retryCount = s.retryCount ∧
    (onWebRTCError s).retryCount = s.retryCount ∧
    (handleRetryCatch s).retryCount = s.retryCount ∧
    (focusRegain env url s).retryCount = s.retryCount := by
  refine ⟨⟨rfl, rfl⟩, ⟨rfl, rfl⟩, ⟨rfl, rfl⟩, ?_, ?_, ?_, rfl, ?_, rfl, rfl, ?_⟩
  · intro h
    simp only [handleRetry, if_neg (by omega : ¬ maxRetries ≤ s.retryCount)]
    cases h1 : useHls url <;> cases h2 : useWebRTC env url <;> simp [h1, h2]
  · intro h
    simp only [handleRetry, if_pos h]
  · cases b <;> rfl
  · cases e <;> rfl
  · simp only [focusRegain]
    cases h1 : useHls url <;> cases h2 : useWebView env url <;> simp [h1, h2]

/-- C5 witness: a retry at counter 1 increments to 2; a retry at the
ceiling leaves 5; a WebRTC connect resets 3 to 0. -/
theorem counter_monotonicity_witness :
    (handleRetry ⟨false⟩ "http://host:8889/cam"
        ⟨StreamStatus.error, 1, 0, 0, none⟩).retryCount = 2 ∧
    (handleRetry ⟨false⟩ "http://host:8889/cam"
        ⟨StreamStatus.offline, 5, 0, 0, none⟩).retryCount = 5 ∧
    (onWebRTCConnected ⟨StreamStatus.connecting, 3, 0, 0, none⟩).retryCount = 0 :=
  ⟨(counter_monotonicity ⟨false⟩ "http://host:8889/cam" none true
      ⟨StreamStatus.error, 1, 0, 0, none⟩).2.2.2.1 (by decide),
   (counter_monotonicity ⟨false⟩ "http://host:8889/cam" none true
      ⟨StreamStatus.offline, 5, 0, 0, none⟩).2.2.2.2.1 (by decide),
   (counter_monotonicity ⟨false⟩ "http://host:8889/cam" none true
      ⟨StreamStatus.connecting, 3, 0, 0, none⟩).2.2.1.1⟩

/-! ## C6 — classifier totality and exclusivity -/

/-- C6 counterexample. The claim states exactly one transport kind is
selected for every URL. For a URL matching both the segmented-manifest
pattern and the real-time gateway pattern, outside the Expo Go sandbox,
both the HLS and the WebRTC branches are selected (both elements render),
so two kinds are active. -/
theorem classifier_exclusivity_counterexample :
    useHls "http://host:8889/cam/stream.m3u8" = true ∧
    useWebRTC ⟨false⟩ "http://host:8889/cam/stream.m3u8" = true ∧
    selectedCount ⟨false⟩ "http://host:8889/cam/stream.m3u8" = 2 := by
  decide

/-- C6 (amended): classification is a total deterministic function of the
URL and the runtime flag — at least one transport kind is always selected
(the WebView branch is the `otherwise` fallback), and exactly one is
selected unless the URL simultaneously matches the segmented-manifest
pattern and the real-time gateway pattern in a runtime with native
real-time support, in which case both of those branches are selected. -/
theorem classifier_totality (env : Env) (url : String) :
    selectedCount env url =
      (if useHls url && useWebRTC env url then 2 else 1) := by
  cases h1 : useHls url <;> cases h2 : useWebRTC env url <;>
    simp [selectedCount, useWebView, h1, h2]

/-! ## C7 — WHEP endpoint derivation -/

/-- C7: the negotiation POST goes to the endpoint URL with one trailing
slash removed and `/whep` appended — in particular
`http://host:8889/cam` maps to `http://host:8889/cam/whep`, with or
without a trailing slash — and the POST carries the local session
description as its body under the `application/sdp` content type. -/
theorem whep_endpoint_derivation (url sdp : String) :
    (connectRequest url sdp).url = dropTrailingSlash url ++ "/whep" ∧
    (connectRequest url sdp).method = "POST" ∧
    (connectRequest url sdp).contentType = "application/sdp" ∧
    (connectRequest url sdp).accept = "application/sdp" ∧
    (connectRequest url sdp).body = sdp ∧
    getWhepEndpoint "http://host:8889/cam" = "http://host:8889/cam/whep" ∧
    getWhepEndpoint "http://host:8889/cam/" = "http://host:8889/cam/whep" ∧
    (endsWithSlash url = false → getWhepEndpoint url = url ++ "/whep") := by
  refine ⟨rfl, rfl, rfl, rfl, rfl, by decide, by decide, ?_⟩
  intro h
  simp [getWhepEndpoint, dropTrailingSlash, h]

/-- C7 witness at the Scenario-B endpoint. -/
theorem whep_endpoint_derivation_witness :
    getWhepEndpoint "http://host:8889/cam" = "http://host:8889/cam" ++ "/whep" :=
  (whep_endpoint_derivation "http://host:8889/cam" "v=0").2.2.2.2.2.2.2
    (by decide)

/-! ## C8 — candidate-gathering timeout bound -/

/-- C8: the gathering wait always resolves — never rejects — within the
fixed 2000 ms timeout: immediately when gathering is already complete, at
the completion time when gathering completes within the timeout, and at
the timeout otherwise (including when gathering never completes), so the
attempt always proceeds and the wait itself never fails it. -/
theorem gathering_timeout_bound (completeAt : Option Nat) :
    (∃ t, gatherWait completeAt = SettleOutcome.resolvedAt t ∧
      t ≤ gatheringTimeoutMs) ∧
    (∀ t r, gatherWait completeAt ≠ SettleOutcome.rejectedAt t r) ∧
    (∀ t, completeAt = some t → t ≤ gatheringTimeoutMs →
      gatherWait completeAt = SettleOutcome.resolvedAt t) ∧
    (completeAt = none →
      gatherWait completeAt = SettleOutcome.resolvedAt gatheringTimeoutMs) := by
  refine ⟨?_, ?_, ?_, ?_⟩
  · match completeAt with
    | none => exact ⟨gatheringTimeoutMs, rfl, le_refl _⟩
    | some 0 => exact ⟨0, rfl, by omega⟩
    | some (c + 1) =>
      by_cases hb : c + 1 ≤ gatheringTimeoutMs
      · exact ⟨c + 1, by simp [gatherWait, hb], hb⟩
      · exact ⟨gatheringTimeoutMs, by simp [gatherWait, hb], le_refl _⟩
  · intro t r
    match completeAt with
    | none => simp [gatherWait]
    | some 0 => simp [gatherWait]
    | some (c + 1) =>
      by_cases hb : c + 1 ≤ gatheringTimeoutMs <;> simp [gatherWait, hb]
  · intro t ht hle
    subst ht
    match t, hle with
    | 0, _ => rfl
    | c + 1, hle => simp [gatherWait, hle]
  · intro hn
    subst hn
    rfl

/-- C8 witness: gathering that never completes resolves the wait at
2000 ms, and gathering completing at 150 ms resolves it at 150 ms. -/
theorem gathering_timeout_bound_witness :
    gatherWait none = SettleOutcome.resolvedAt gatheringTimeoutMs ∧
    gatherWait (some 150) = SettleOutcome.resolvedAt 150 :=
  ⟨(gathering_timeout_bound none).2.2.2 rfl,
   (gathering_timeout_bound (some 150)).2.2.1 150 rfl (by decide)⟩

/-! ## C9 — negotiator event surface -/

/-- C9 counterexample. The claim states `onConnected` fires exactly the
first time inbound media is attached and not on subsequent track
attachments within one attempt. The `ontrack` handler's guard looks only
at the incoming event, so two track events each carrying a stream (as a
video+audio session produces) fire `onConnected` twice. -/
theorem track_attach_counterexample :
    (processTrackEvents ⟨none⟩ [⟨[1]⟩, ⟨[1]⟩]).2 = 2 ∧
    (processTrackEvents ⟨none⟩ [⟨[1]⟩, ⟨[1]⟩]).2 ≠ 1 := by
  decide

/-- C9 (amended): the `ontrack` handler fires `onConnected` on every track
event carrying a stream — regardless of whether media was already
attached — and never on an event without streams; the ICE handler reports
`Connection failed` / `Connection disconnected` exactly when the ICE
state becomes `failed` or `disconnected`, and stays silent on every other
state. -/
theorem negotiator_event_surface (ev : TrackEvent) (v : AttemptView)
    (st : IceState) :
    (ev.streams ≠ [] → (onTrackHandler ev v).2 = true) ∧
    (ev.streams = [] → (onTrackHandler ev v).2 = false) ∧
    onIceStateChange IceState.failed = some "Connection failed" ∧
    onIceStateChange IceState.disconnected = some "Connection disconnected" ∧
    (st ≠ IceState.failed → st ≠ IceState.disconnected →
      onIceStateChange st = none) := by
  refine ⟨?_, ?_, rfl, rfl, ?_⟩
  · intro h
    match hm : ev.streams with
    | [] => exact absurd hm h
    | sId :: rest => simp [onTrackHandler, hm]
  · intro h
    simp [onTrackHandler, h]
  · intro h1 h2
    simp [onIceStateChange, h1, h2]

/-- C9 witness: a stream-carrying event fires `onConnected` even when a
stream is already attached; an ICE transition to `checking` is silent. -/
theorem negotiator_event_surface_witness :
    (onTrackHandler ⟨[2]⟩ ⟨some 1⟩).2 = true ∧
    onIceStateChange IceState.checking = none :=
  ⟨(negotiator_event_surface ⟨[2]⟩ ⟨some 1⟩ IceState.checking).1 (by decide),
   (negotiator_event_surface ⟨[2]⟩ ⟨some 1⟩ IceState.checking).2.2.2.2
     (by decide) (by decide)⟩

/-! ## C10 — focus-regain frame effect -/

/-- C10: regaining focus sets the status to `connecting` from every state
— `offline` included — while leaving the retry counter unchanged: the
focus-regain transition resumes attempts after `offline` without a manual
retry and without resetting the counter to 0. -/
theorem focus_regain_frame (env : Env) (url : String) (s : SupState) :
    (focusRegain env url s).status = StreamStatus.connecting ∧
    (focusRegain env url s).retryCount = s.retryCount := by
  constructor <;>
    · simp only [focusRegain]
      cases h1 : useHls url <;> cases h2 : useWebView env url <;> simp [h1, h2]

end Sentryx
